import Mathlib

/-!
# libcluster, matlab/learnSCM.cpp: the MEX boundary of the Simultaneous Clustering Model

A shallow embedding of `mexFunction` (src/matlab/learnSCM.cpp, lines 61-131).

The function is stateful C++: it writes the output slots `plhs[0..5]`, swaps the stream
buffer of `std::cout`, calls the clustering engine and may leave through `mexErrMsgTxt`
(which never returns) or through a C++ exception.  The embedding passes that state
explicitly: a call yields a `Call` record holding the final `std::cout` buffer, the
ordered trace of the boundary operations that were executed, the six output slots and
the way the call ended.

`R` is the type of `double` values.  The adapter only copies them, so it stays a
parameter; `exp` is an abstract function on `R`.
-/

namespace LibCluster

/-! ## Native (Eigen) side -/

/-- Eigen dense object (`MatrixXd`, `RowVectorXd`, `ArrayXd`): a shape and the coefficients. -/
structure MatrixXd (R : Type) where
  rows : Nat
  cols : Nat
  coeffs : List R
deriving DecidableEq, Repr

/-- The libcluster typedef `vMatrixXd`, a `std::vector<MatrixXd>`. -/
abbrev vMatrixXd (R : Type) := List (MatrixXd R)

/-- The libcluster typedef `vvMatrixXd`, a `std::vector<std::vector<MatrixXd>>`. -/
abbrev vvMatrixXd (R : Type) := List (List (MatrixXd R))

/-- Eigen `.exp()` on an array: the coefficient-wise image under `f`, the shape kept. -/
def MatrixXd.exp {R : Type} (f : R → R) (m : MatrixXd R) : MatrixXd R :=
  { m with coeffs := m.coeffs.map f }

/-- Engine type `distributions::GDirichlet`, seen through the one accessor the adapter uses. -/
structure GDirichlet (R : Type) where
  Elogweight : MatrixXd R
deriving DecidableEq, Repr

/-- Engine type `distributions::Dirichlet`, seen through the one accessor the adapter uses. -/
structure Dirichlet (R : Type) where
  Elogweight : MatrixXd R
deriving DecidableEq, Repr

/-- Engine type `distributions::GaussWish`, seen through `getmean()` and `getcov()`. -/
structure GaussWish (R : Type) where
  getmean : MatrixXd R
  getcov : MatrixXd R
deriving DecidableEq, Repr

/-- The `Options` record of `mintfctns.h` (fields as read by `mexFunction` and as listed in
its interface comment). -/
structure Options (R : Type) where
  trunc : Nat
  prior : R
  verbose : Bool
  sparse : Bool
  threads : Nat
deriving DecidableEq, Repr

/-! ## C++ exceptions -/

/-- An object of the `std::exception` family, by its dynamic type: `std::exception` itself,
or a derived class (`std::runtime_error`, `std::invalid_argument`, ...) that overrides
`what()` with its own message. -/
inductive StdException where
  | base : StdException
  | derived (msg : String) : StdException
deriving DecidableEq, Repr

/-- Virtual `what()`.  The text returned by the base class is implementation defined and is
the parameter `generic`. -/
def StdException.what (generic : String) : StdException → String
  | .base => generic
  | .derived msg => msg

/-- Copy-initialisation of an object of static type `std::exception` from a thrown object,
as done by a handler `catch (exception e)`: only the base subobject is copied, so the copy
has dynamic type `std::exception`. -/
def StdException.copyToBase : StdException → StdException
  | _ => .base

/-- What a `throw` can raise. -/
inductive Thrown where
  | exception (e : StdException) : Thrown
  | other : Thrown
deriving DecidableEq, Repr

/-- The five by-reference results of `learnSCM`. -/
structure ResultSet (R : Type) where
  qY : vMatrixXd R
  qZ : vvMatrixXd R
  weights : List (GDirichlet R)
  classes : List (Dirichlet R)
  clusters : List (GaussWish R)
deriving DecidableEq, Repr

/-- How the call of `learnSCM` ends. -/
inductive EngineOutcome (R : Type) where
  | returned (rs : ResultSet R) : EngineOutcome R
  | threw (t : Thrown) : EngineOutcome R
deriving DecidableEq, Repr

/-! ## Host (MATLAB) side -/

/-- A loosely typed scalar held by a field of a host structure. -/
inductive OptValue (R : Type) where
  | int (i : Int) : OptValue R
  | real (r : R) : OptValue R
  | bool (b : Bool) : OptValue R
  | other : OptValue R
deriving DecidableEq, Repr

/-- The host array type `mxArray`: a null pointer (an unset cell element or output slot),
a numeric matrix, a cell matrix, or a scalar structure. -/
inductive MxArray (R : Type) where
  | null : MxArray R
  | numeric (rows cols : Nat) (data : List R) : MxArray R
  | cell (rows cols : Nat) (elems : List (MxArray R)) : MxArray R
  | struct (fields : List (String × OptValue R)) : MxArray R

/-- MEX API `mxCreateCellMatrix(m, n)`: an m-by-n cell matrix, every element unset. -/
def mxCreateCellMatrix {R : Type} (m n : Nat) : MxArray R :=
  .cell m n (List.replicate (m * n) .null)

/-- MEX API `mxSetCell(c, i, v)`: element `i` of the cell matrix `c` becomes `v`. -/
def mxSetCell {R : Type} (c : MxArray R) (i : Nat) (v : MxArray R) : MxArray R :=
  match c with
  | .cell m n elems => .cell m n (elems.set i v)
  | a => a

/-- Modelled from the spec: `eig2mat` of mintfctns.h is not among the sources; the spec has
every output element produced by value copy, dimensions preserved exactly. -/
def eig2mat {R : Type} (m : MatrixXd R) : MxArray R :=
  .numeric m.rows m.cols m.coeffs

/-- Modelled from the spec: `vec2cell` of mintfctns.h is not among the sources; the spec has
`qY` become an ordered container of J numeric matrices. -/
def vec2cell {R : Type} (v : vMatrixXd R) : MxArray R :=
  .cell 1 v.length (v.map eig2mat)

/-- Modelled from the spec: `vecvec2cellcell` of mintfctns.h is not among the sources; the
spec has `qZ` become a nested container preserving the two-level shape. -/
def vecvec2cellcell {R : Type} (vv : vvMatrixXd R) : MxArray R :=
  .cell 1 vv.length (vv.map vec2cell)

/-! ## The diagnostic redirection -/

/-- The stream buffer installed in `std::cout`. -/
inductive StreamBuf where
  | host (id : Nat) : StreamBuf
  | mexout : StreamBuf
deriving DecidableEq, Repr

/-- Modelled from the spec: class `mexstreambuf` of mintfctns.h is not among the sources.
The object remembers the buffer it displaced (none before `hijack`).  `mexFunction`
releases the redirection by its explicit calls of `restore` (lines 93 and 98). -/
structure mexstreambuf where
  outbuf : Option StreamBuf
deriving DecidableEq, Repr

/-- Modelled from the spec: `mexstreambuf::hijack` (mintfctns.h, not among the sources)
installs the redirection: the object becomes the buffer of `std::cout` and keeps the one
it displaced. -/
def mexstreambuf.hijack (_self : mexstreambuf) (cout : StreamBuf) : mexstreambuf × StreamBuf :=
  ({ outbuf := some cout }, .mexout)

/-- Modelled from the spec: `mexstreambuf::restore` (mintfctns.h, not among the sources)
releases the redirection: the displaced buffer is put back into `std::cout`. -/
def mexstreambuf.restore (self : mexstreambuf) (cout : StreamBuf) : StreamBuf :=
  match self.outbuf with
  | some b => b
  | none => cout

/-! ## One call of `mexFunction` -/

/-- The boundary operations of `mexFunction`, in the order they are executed. -/
inductive Event (R : Type) where
  | cellcell2vecvec : Event R
  | parseopts : Event R
  | hijack : Event R
  | learnSCM (X : vvMatrixXd R) (trunc : Nat) (prior : R) (verbose : Bool) (threads : Nat) :
      Event R
  | restore : Event R
  | mexErrMsgTxt (msg : String) : Event R

/-- Is the event a call of `mexout.restore()`? -/
def Event.isRestore {R : Type} : Event R → Bool
  | .restore => true
  | _ => false

/-- Is the event a call of the engine? -/
def Event.isLearnSCM {R : Type} : Event R → Bool
  | .learnSCM _ _ _ _ _ => true
  | _ => false

/-- How a call of `mexFunction` ends: it returns, it is aborted by `mexErrMsgTxt` with a
message, or a thrown value leaves the function uncaught. -/
inductive Status where
  | returned : Status
  | fatal (msg : String) : Status
  | uncaught : Status
deriving DecidableEq, Repr

/-- The observable result of one call. -/
structure Call (R : Type) where
  cout : StreamBuf
  trace : List (Event R)
  plhs : List (MxArray R)
  status : Status

/-- The collaborators of `mexFunction` that are not in learnSCM.cpp: the input marshaller
and the options parser of mintfctns.h (either may abort through `mexErrMsgTxt`, hence
`Except`), the default-constructed `Options`, the engine, the text of the base class
`what()`, and the scalar exponential. -/
structure Env (R : Type) where
  cellcell2vecvec : MxArray R → Except String (vvMatrixXd R)
  parseopts : Options R → MxArray R → Except String (Options R)
  optsDefault : Options R
  learnSCM : vvMatrixXd R → Nat → R → Bool → Nat → EngineOutcome R
  genericWhat : String
  exp : R → R

/-- The output slots before any is assigned. -/
def plhsInit {R : Type} : List (MxArray R) :=
  List.replicate 6 .null

/-- A C loop `for (j = 0; j < n; ++j) body`. -/
def forLoop {σ : Type} (n : Nat) (body : Nat → σ → σ) (s : σ) : σ :=
  (List.range n).foldl (fun acc j => body j acc) s

/-- The loop statement `mxSetCell(c, j, f(xs[j]))`; the loops run over `j < xs.size()`, so
the index is always within `xs`. -/
def setCellFrom {R α : Type} (xs : List α) (f : α → MxArray R) (j : Nat) (c : MxArray R) :
    MxArray R :=
  match xs[j]? with
  | some w => mxSetCell c j (f w)
  | none => c

/-- Lines 100-130: the six outputs built from the engine results. -/
def formatReturns {R : Type} (exp : R → R) (rs : ResultSet R) : List (MxArray R) :=
  -- Assignments
  let plhs0 := vec2cell rs.qY
  let plhs1 := vecvec2cellcell rs.qZ
  -- Weights
  let J := rs.weights.length
  let plhs2 := forLoop J
    (fun j c => setCellFrom rs.weights (fun w => eig2mat (w.Elogweight.exp exp)) j c)
    (mxCreateCellMatrix 1 J)
  -- Image Cluster Parameters
  let T := rs.classes.length
  let plhs3 := forLoop T
    (fun t c => setCellFrom rs.classes (fun w => eig2mat (w.Elogweight.exp exp)) t c)
    (mxCreateCellMatrix 1 T)
  -- Segment Cluster Parameters
  let K := rs.clusters.length
  let plhs45 := forLoop K
    (fun k c =>
      (setCellFrom rs.clusters (fun g => eig2mat g.getmean) k c.1,
       setCellFrom rs.clusters (fun g => eig2mat g.getcov) k c.2))
    (mxCreateCellMatrix 1 K, mxCreateCellMatrix 1 K)
  [plhs0, plhs1, plhs2, plhs3, plhs45.1, plhs45.2]

/-- Lines 75-130: from the redirection of `std::cout` to the end, the input `X` and the
options `opts` being ready and `pre` the trace so far. -/
def runEngine {R : Type} (env : Env R) (cout0 : StreamBuf) (pre : List (Event R))
    (X : vvMatrixXd R) (opts : Options R) : Call R :=
  -- redirect cout
  let h := mexstreambuf.hijack { outbuf := none } cout0
  let mexout := h.1
  let cout1 := h.2
  let tr := pre ++ [.hijack, .learnSCM X opts.trunc opts.prior opts.verbose opts.threads]
  -- Run the algorithm
  match env.learnSCM X opts.trunc opts.prior opts.verbose opts.threads with
  | .threw (.exception thrown) =>
    -- catch (exception e)
    let e := thrown.copyToBase
    let cout2 := mexout.restore cout1
    let msg := e.what env.genericWhat
    { cout := cout2, trace := tr ++ [.restore, .mexErrMsgTxt msg], plhs := plhsInit,
      status := .fatal msg }
  | .threw .other =>
    -- the handler `catch (exception e)` does not match: the value leaves mexFunction with
    -- neither line 93 nor line 98 executed
    { cout := cout1, trace := tr, plhs := plhsInit, status := .uncaught }
  | .returned rs =>
    -- Restore cout
    let cout2 := mexout.restore cout1
    { cout := cout2, trace := tr ++ [.restore], plhs := formatReturns env.exp rs,
      status := .returned }

/-- The entry point `mexFunction (nlhs, plhs, nrhs, prhs)`: `nrhs` is the length of `prhs`,
`plhs` is a field of the result, `cout0` is the buffer of `std::cout` on entry. -/
def mexFunction {R : Type} (env : Env R) (_nlhs : Nat) (prhs : List (MxArray R))
    (cout0 : StreamBuf) : Call R :=
  let nrhs := prhs.length
  -- Parse some inputs
  if nrhs < 1 then
    { cout := cout0, trace := [.mexErrMsgTxt "Need at least some input data, X."],
      plhs := plhsInit, status := .fatal "Need at least some input data, X." }
  else
    -- Map X matlab matrices to constant eigen matrices
    match env.cellcell2vecvec (prhs.getD 0 .null) with
    | .error msg =>
      { cout := cout0, trace := [.cellcell2vecvec, .mexErrMsgTxt msg], plhs := plhsInit,
        status := .fatal msg }
    | .ok X =>
      -- Create and parse the options structure
      if nrhs > 1 then
        match env.parseopts env.optsDefault (prhs.getD 1 .null) with
        | .error msg =>
          { cout := cout0, trace := [.cellcell2vecvec, .parseopts, .mexErrMsgTxt msg],
            plhs := plhsInit, status := .fatal msg }
        | .ok opts => runEngine env cout0 [.cellcell2vecvec, .parseopts] X opts
      else
        runEngine env cout0 [.cellcell2vecvec] X env.optsDefault

/-! ## The collaborators of mintfctns.h, from the specification -/

/-- Modelled from the spec: the item conversion of mintfctns.h is not among the sources;
each item entry must be convertible into a numeric matrix, copied by value. -/
def mat2eig {R : Type} : MxArray R → Except String (MatrixXd R)
  | .numeric rows cols data => .ok { rows := rows, cols := cols, coeffs := data }
  | _ => .error "Numeric matrix expected."

/-- Modelled from the spec: the group conversion of mintfctns.h is not among the sources;
each group entry must be enumerable into its item entries. -/
def cell2vec {R : Type} : MxArray R → Except String (vMatrixXd R)
  | .cell _ _ elems => elems.mapM mat2eig
  | _ => .error "Cell array of matrices expected."

/-- Modelled from the spec: `cellcell2vecvec` of mintfctns.h is not among the sources; the
outer container must be enumerable into group entries, and an empty outer container is an
input-shape error. -/
def specCellcell2vecvec {R : Type} : MxArray R → Except String (vvMatrixXd R)
  | .cell _ _ elems =>
    if elems.isEmpty then .error "Empty input data." else elems.mapM cell2vec
  | _ => .error "Cell array of cell arrays expected."

/-- Modelled from the spec: the `trunc` step of `Options::parseopts` (mintfctns.h, not among
the sources); the option is a positive integer and, when absent, the default stays. -/
def parseTrunc {R : Type} (dflt : Nat) : Option (OptValue R) → Except String Nat
  | none => .ok dflt
  | some (.int i) =>
    if 1 ≤ i then .ok i.toNat else .error "Option trunc must be a positive integer."
  | some _ => .error "Option trunc must be a positive integer."

/-- Modelled from the spec: the `prior` step of `Options::parseopts` (mintfctns.h, not among
the sources); the option is a positive real and, when absent, the default stays. -/
def parsePrior {R : Type} [LinearOrderedRing R] (dflt : R) :
    Option (OptValue R) → Except String R
  | none => .ok dflt
  | some (.real r) => if 0 < r then .ok r else .error "Option prior must be positive."
  | some (.int i) => if 0 < i then .ok (i : R) else .error "Option prior must be positive."
  | some _ => .error "Option prior must be positive."

/-- Modelled from the spec: the `verbose` and `sparse` steps of `Options::parseopts`
(mintfctns.h, not among the sources); the options are booleans and, when absent, the
default stays. -/
def parseFlag {R : Type} (dflt : Bool) : Option (OptValue R) → Except String Bool
  | none => .ok dflt
  | some (.bool b) => .ok b
  | some _ => .error "Option flag must be a boolean."

/-- Modelled from the spec: the `threads` step of `Options::parseopts` (mintfctns.h, not
among the sources); the option is a non-negative integer and, when absent, the default
stays. -/
def parseThreads {R : Type} (dflt : Nat) : Option (OptValue R) → Except String Nat
  | none => .ok dflt
  | some (.int i) =>
    if 0 ≤ i then .ok i.toNat else .error "Option threads must be a non-negative integer."
  | some _ => .error "Option threads must be a non-negative integer."

/-- Modelled from the spec: `Options::parseopts` of mintfctns.h is not among the sources.
The recognized keys `trunc`, `prior`, `verbose`, `sparse`, `threads` overlay the defaults;
a recognized key with a value of the wrong shape or out of its domain fails; unrecognized
keys are ignored. -/
def specParseopts {R : Type} [LinearOrderedRing R] (dflt : Options R) :
    MxArray R → Except String (Options R)
  | .struct fields =>
    match parseTrunc dflt.trunc (fields.lookup "trunc") with
    | .error msg => .error msg
    | .ok trunc =>
    match parsePrior dflt.prior (fields.lookup "prior") with
    | .error msg => .error msg
    | .ok prior =>
    match parseFlag dflt.verbose (fields.lookup "verbose") with
    | .error msg => .error msg
    | .ok verbose =>
    match parseFlag dflt.sparse (fields.lookup "sparse") with
    | .error msg => .error msg
    | .ok sparse =>
    match parseThreads dflt.threads (fields.lookup "threads") with
    | .error msg => .error msg
    | .ok threads =>
      .ok { trunc := trunc, prior := prior, verbose := verbose, sparse := sparse,
            threads := threads }
  | _ => .error "Options structure expected."

/-- The environment `env` with the options parser of the specification. -/
def Env.withSpecParseopts {R : Type} [LinearOrderedRing R] (env : Env R) : Env R :=
  { env with parseopts := specParseopts }

/-- An options structure that gives `trunc`, `prior` or `threads` a value of the right
shape outside its domain. -/
def OutOfDomain {R : Type} [LinearOrderedRing R] (fields : List (String × OptValue R)) : Prop :=
  (∃ i : Int, fields.lookup "trunc" = some (.int i) ∧ i < 1) ∨
  (∃ r : R, fields.lookup "prior" = some (.real r) ∧ r ≤ 0) ∨
  (∃ i : Int, fields.lookup "prior" = some (.int i) ∧ i ≤ 0) ∨
  (∃ i : Int, fields.lookup "threads" = some (.int i) ∧ i < 0)

/-- Is the event a call of `mexErrMsgTxt`? -/
def Event.isMexErrMsgTxt {R : Type} : Event R → Bool
  | .mexErrMsgTxt _ => true
  | _ => false

/-- The prefixes of the trace that can precede the redirection. -/
def IsSetupTrace {R : Type} (pre : List (Event R)) : Prop :=
  pre = [.cellcell2vecvec] ∨ pre = [.cellcell2vecvec, .parseopts]

/-! ## A concrete setting for the examples -/

/-- An environment over integer data whose engine ends the same way on every input. -/
def demoEnv (outcome : EngineOutcome Int) : Env Int :=
  { cellcell2vecvec := specCellcell2vecvec
    parseopts := specParseopts
    optsDefault := { trunc := 100, prior := 1, verbose := false, sparse := false, threads := 0 }
    learnSCM := fun _ _ _ _ _ => outcome
    genericWhat := "std::exception"
    exp := fun x => 2 * x + 1 }

/-- One group holding one item, a matrix of 2 observations in 2 dimensions. -/
def demoX : MxArray Int :=
  .cell 1 1 [.cell 1 1 [.numeric 2 2 [1, 2, 3, 4]]]

/-- The native form of `demoX`. -/
def demoXnative : vvMatrixXd Int :=
  [[{ rows := 2, cols := 2, coeffs := [1, 2, 3, 4] }]]

/-- An engine result with J = 1 group, T = 2 classes and K = 3 clusters. -/
def demoResult : ResultSet Int :=
  { qY := [{ rows := 1, cols := 2, coeffs := [1, 0] }]
    qZ := [[{ rows := 2, cols := 3, coeffs := [1, 0, 0, 0, 1, 0] }]]
    weights := [{ Elogweight := { rows := 2, cols := 1, coeffs := [-1, -2] } }]
    classes := [{ Elogweight := { rows := 3, cols := 1, coeffs := [-1, -2, -3] } },
                { Elogweight := { rows := 3, cols := 1, coeffs := [-4, -5, -6] } }]
    clusters := [{ getmean := { rows := 1, cols := 2, coeffs := [0, 0] },
                   getcov := { rows := 2, cols := 2, coeffs := [1, 0, 0, 1] } },
                 { getmean := { rows := 1, cols := 2, coeffs := [5, 5] },
                   getcov := { rows := 2, cols := 2, coeffs := [2, 0, 0, 2] } },
                 { getmean := { rows := 1, cols := 2, coeffs := [9, 9] },
                   getcov := { rows := 2, cols := 2, coeffs := [3, 0, 0, 3] } }] }

/-! ## Supporting lemmas -/

/-- `mexFunction` on an empty argument list. -/
theorem mexFunction_nil {R : Type} (env : Env R) (nlhs : Nat) (cout0 : StreamBuf) :
    mexFunction env nlhs [] cout0 =
      { cout := cout0, trace := [.mexErrMsgTxt "Need at least some input data, X."],
        plhs := plhsInit, status := .fatal "Need at least some input data, X." } := by
  simp [mexFunction]

/-- `mexFunction` when the input marshaller fails. -/
theorem mexFunction_marshal_error {R : Type} (env : Env R) (nlhs : Nat) (x : MxArray R)
    (rest : List (MxArray R)) (cout0 : StreamBuf) (msg : String)
    (hX : env.cellcell2vecvec x = .error msg) :
    mexFunction env nlhs (x :: rest) cout0 =
      { cout := cout0, trace := [.cellcell2vecvec, .mexErrMsgTxt msg], plhs := plhsInit,
        status := .fatal msg } := by
  simp [mexFunction, hX]

/-- `mexFunction` on a single argument that is marshalled successfully. -/
theorem mexFunction_single {R : Type} (env : Env R) (nlhs : Nat) (x : MxArray R)
    (cout0 : StreamBuf) (X : vvMatrixXd R) (hX : env.cellcell2vecvec x = .ok X) :
    mexFunction env nlhs [x] cout0 = runEngine env cout0 [.cellcell2vecvec] X env.optsDefault := by
  simp [mexFunction, hX]

/-- `mexFunction` when the options parser fails. -/
theorem mexFunction_parse_error {R : Type} (env : Env R) (nlhs : Nat) (x a : MxArray R)
    (more : List (MxArray R)) (cout0 : StreamBuf) (X : vvMatrixXd R) (msg : String)
    (hX : env.cellcell2vecvec x = .ok X) (hO : env.parseopts env.optsDefault a = .error msg) :
    mexFunction env nlhs (x :: a :: more) cout0 =
      { cout := cout0, trace := [.cellcell2vecvec, .parseopts, .mexErrMsgTxt msg],
        plhs := plhsInit, status := .fatal msg } := by
  simp [mexFunction, hX, hO]

/-- `mexFunction` when input and options are both accepted. -/
theorem mexFunction_parse_ok {R : Type} (env : Env R) (nlhs : Nat) (x a : MxArray R)
    (more : List (MxArray R)) (cout0 : StreamBuf) (X : vvMatrixXd R) (opts : Options R)
    (hX : env.cellcell2vecvec x = .ok X) (hO : env.parseopts env.optsDefault a = .ok opts) :
    mexFunction env nlhs (x :: a :: more) cout0 =
      runEngine env cout0 [.cellcell2vecvec, .parseopts] X opts := by
  simp [mexFunction, hX, hO]

/-- Membership of an engine event in the trace of `runEngine` fixes its arguments. -/
theorem runEngine_mem_learnSCM {R : Type} (env : Env R) (cout0 : StreamBuf)
    (pre : List (Event R)) (hpre : IsSetupTrace pre) (X X1 : vvMatrixXd R) (opts : Options R)
    (t : Nat) (p : R) (v : Bool) (th : Nat)
    (h : Event.learnSCM X1 t p v th ∈ (runEngine env cout0 pre X opts).trace) :
    X1 = X ∧ t = opts.trunc ∧ p = opts.prior ∧ v = opts.verbose ∧ th = opts.threads := by
  unfold runEngine at h
  rcases hpre with rfl | rfl <;>
    cases hE : env.learnSCM X opts.trunc opts.prior opts.verbose opts.threads with
    | returned rs => simp [hE] at h; exact h
    | threw thr => cases thr <;> (simp [hE] at h; exact h)

/-- A call whose trace holds an engine event went through `runEngine` with these arguments. -/
theorem mexFunction_engine_called {R : Type} (env : Env R) (nlhs : Nat)
    (prhs : List (MxArray R)) (cout0 : StreamBuf) (X : vvMatrixXd R)
    (t : Nat) (p : R) (v : Bool) (th : Nat)
    (h : Event.learnSCM X t p v th ∈ (mexFunction env nlhs prhs cout0).trace) :
    ∃ pre opts, IsSetupTrace pre ∧ t = opts.trunc ∧ p = opts.prior ∧ v = opts.verbose ∧
      th = opts.threads ∧
      mexFunction env nlhs prhs cout0 = runEngine env cout0 pre X opts := by
  match prhs with
  | [] =>
    rw [mexFunction_nil] at h
    simp at h
  | x :: rest =>
    cases hX : env.cellcell2vecvec x with
    | error msg =>
      rw [mexFunction_marshal_error env nlhs x rest cout0 msg hX] at h
      simp at h
    | ok X0 =>
      match rest with
      | [] =>
        rw [mexFunction_single env nlhs x cout0 X0 hX] at h ⊢
        obtain ⟨rfl, h1, h2, h3, h4⟩ :=
          runEngine_mem_learnSCM env cout0 _ (Or.inl rfl) X0 X env.optsDefault t p v th h
        exact ⟨_, env.optsDefault, Or.inl rfl, h1, h2, h3, h4, rfl⟩
      | o :: more =>
        cases hO : env.parseopts env.optsDefault o with
        | error msg =>
          rw [mexFunction_parse_error env nlhs x o more cout0 X0 msg hX hO] at h
          simp at h
        | ok opts =>
          rw [mexFunction_parse_ok env nlhs x o more cout0 X0 opts hX hO] at h ⊢
          obtain ⟨rfl, h1, h2, h3, h4⟩ :=
            runEngine_mem_learnSCM env cout0 _ (Or.inr rfl) X0 X opts t p v th h
          exact ⟨_, opts, Or.inr rfl, h1, h2, h3, h4, rfl⟩

/-- The cell-filling loop after `k` rounds: the first `k` elements are set. -/
theorem fill_prefix {R α : Type} (xs : List α) (f : α → MxArray R) (k : Nat)
    (hk : k ≤ xs.length) :
    forLoop k (setCellFrom xs f) (.cell 1 xs.length (List.replicate xs.length .null))
    = .cell 1 xs.length ((xs.take k).map f ++ List.replicate (xs.length - k) .null) := by
  induction k with
  | zero => simp [forLoop]
  | succ k ih =>
    have hlt : k < xs.length := hk
    have ih1 := ih (Nat.le_of_lt hlt)
    unfold forLoop at ih1 ⊢
    rw [List.range_succ, List.foldl_append, ih1]
    have hsome : xs[k]? = some xs[k] := List.getElem?_eq_getElem hlt
    have hlen : ((xs.take k).map f).length = k := by simp [Nat.min_eq_left (Nat.le_of_lt hlt)]
    have hrep : List.replicate (xs.length - k) (MxArray.null : MxArray R)
        = .null :: List.replicate (xs.length - (k + 1)) .null := by
      have : xs.length - k = (xs.length - (k + 1)) + 1 := by omega
      rw [this, List.replicate_succ]
    simp only [List.foldl_cons, List.foldl_nil, setCellFrom, hsome, mxSetCell]
    rw [hrep, List.set_append]
    simp only [hlen, Nat.lt_irrefl, if_false, Nat.sub_self, List.set_cons_zero]
    rw [List.take_succ, hsome]
    simp only [Option.toList, List.map_append, List.map_cons, List.map_nil, List.append_assoc,
      List.singleton_append]

/-- The cell-filling loop run to its end sets every element, in order. -/
theorem fill_all {R α : Type} (xs : List α) (f : α → MxArray R) :
    forLoop xs.length (fun j c => setCellFrom xs f j c) (mxCreateCellMatrix 1 xs.length)
    = .cell 1 xs.length (xs.map f) := by
  have h := fill_prefix xs f xs.length (Nat.le_refl _)
  simpa [mxCreateCellMatrix] using h

/-- A loop over a pair whose body acts on each component is a pair of loops. -/
theorem forLoop_pair {σ τ : Type} (n : Nat) (b1 : Nat → σ → σ) (b2 : Nat → τ → τ)
    (s : σ) (t : τ) :
    forLoop n (fun j (c : σ × τ) => (b1 j c.1, b2 j c.2)) (s, t)
      = (forLoop n b1 s, forLoop n b2 t) := by
  unfold forLoop
  induction (List.range n) generalizing s t with
  | nil => rfl
  | cons a l ih => simp [List.foldl_cons, ih]

/-- The six outputs in closed form: each loop yields the list of converted elements. -/
theorem formatReturns_eq {R : Type} (exp : R → R) (rs : ResultSet R) :
    formatReturns exp rs =
      [vec2cell rs.qY, vecvec2cellcell rs.qZ,
       .cell 1 rs.weights.length (rs.weights.map fun w => eig2mat (w.Elogweight.exp exp)),
       .cell 1 rs.classes.length (rs.classes.map fun w => eig2mat (w.Elogweight.exp exp)),
       .cell 1 rs.clusters.length (rs.clusters.map fun g => eig2mat g.getmean),
       .cell 1 rs.clusters.length (rs.clusters.map fun g => eig2mat g.getcov)] := by
  have hpair := forLoop_pair rs.clusters.length
    (fun k c => setCellFrom rs.clusters (fun g : GaussWish R => eig2mat g.getmean) k c)
    (fun k c => setCellFrom rs.clusters (fun g : GaussWish R => eig2mat g.getcov) k c)
    (mxCreateCellMatrix 1 rs.clusters.length) (mxCreateCellMatrix 1 rs.clusters.length)
  unfold formatReturns
  simp only [] at hpair ⊢
  rw [hpair, fill_all, fill_all, fill_all, fill_all]

/-- A call that returned went through `runEngine`, the engine returned, and the outputs are
those of `formatReturns`. -/
theorem mexFunction_returned {R : Type} (env : Env R) (nlhs : Nat) (prhs : List (MxArray R))
    (cout0 : StreamBuf) (h : (mexFunction env nlhs prhs cout0).status = .returned) :
    ∃ (pre : List (Event R)) (X : vvMatrixXd R) (opts : Options R) (rs : ResultSet R),
      IsSetupTrace pre ∧
      env.learnSCM X opts.trunc opts.prior opts.verbose opts.threads = .returned rs ∧
      (mexFunction env nlhs prhs cout0).trace
        = pre ++ [.hijack, .learnSCM X opts.trunc opts.prior opts.verbose opts.threads,
                  .restore] ∧
      (mexFunction env nlhs prhs cout0).plhs = formatReturns env.exp rs ∧
      (mexFunction env nlhs prhs cout0).cout = cout0 := by
  have key : ∀ (pre : List (Event R)) (X : vvMatrixXd R) (opts : Options R),
      IsSetupTrace pre → (runEngine env cout0 pre X opts).status = .returned →
      ∃ (pre1 : List (Event R)) (X1 : vvMatrixXd R) (opts1 : Options R) (rs : ResultSet R),
        IsSetupTrace pre1 ∧
        env.learnSCM X1 opts1.trunc opts1.prior opts1.verbose opts1.threads = .returned rs ∧
        (runEngine env cout0 pre X opts).trace
          = pre1 ++ [.hijack, .learnSCM X1 opts1.trunc opts1.prior opts1.verbose opts1.threads,
                    .restore] ∧
        (runEngine env cout0 pre X opts).plhs = formatReturns env.exp rs ∧
        (runEngine env cout0 pre X opts).cout = cout0 := by
    intro pre X opts hpre hst
    unfold runEngine at hst ⊢
    cases hE : env.learnSCM X opts.trunc opts.prior opts.verbose opts.threads with
    | returned rs =>
      exact ⟨pre, X, opts, rs, hpre, hE, by simp, by simp,
        by simp [mexstreambuf.hijack, mexstreambuf.restore]⟩
    | threw thr => cases thr <;> simp [hE] at hst
  match prhs with
  | [] =>
    rw [mexFunction_nil] at h
    simp at h
  | x :: rest =>
    cases hX : env.cellcell2vecvec x with
    | error msg =>
      rw [mexFunction_marshal_error env nlhs x rest cout0 msg hX] at h
      simp at h
    | ok X0 =>
      match rest with
      | [] =>
        rw [mexFunction_single env nlhs x cout0 X0 hX] at h ⊢
        exact key _ X0 env.optsDefault (Or.inl rfl) h
      | o :: more =>
        cases hO : env.parseopts env.optsDefault o with
        | error msg =>
          rw [mexFunction_parse_error env nlhs x o more cout0 X0 msg hX hO] at h
          simp at h
        | ok opts =>
          rw [mexFunction_parse_ok env nlhs x o more cout0 X0 opts hX hO] at h ⊢
          exact key _ X0 opts (Or.inr rfl) h

/-- The trace of `runEngine` begins with the setup trace, the redirection and the engine
call. -/
theorem runEngine_trace {R : Type} (env : Env R) (cout0 : StreamBuf) (pre : List (Event R))
    (X : vvMatrixXd R) (opts : Options R) :
    ∃ post, (runEngine env cout0 pre X opts).trace
        = pre ++ [.hijack, .learnSCM X opts.trunc opts.prior opts.verbose opts.threads] ++ post ∧
      (∀ ev ∈ post, ev = .restore ∨ ∃ msg, ev = .mexErrMsgTxt msg) := by
  unfold runEngine
  cases hE : env.learnSCM X opts.trunc opts.prior opts.verbose opts.threads with
  | returned rs => exact ⟨[.restore], by simp, by simp⟩
  | threw thr =>
    cases thr with
    | other => exact ⟨[], by simp, by simp⟩
    | exception e =>
      exact ⟨[.restore, .mexErrMsgTxt (e.copyToBase.what env.genericWhat)], by simp, by simp⟩

/-- A fatal end of `runEngine` follows an exception thrown by the engine. -/
theorem runEngine_fatal {R : Type} (env : Env R) (cout0 : StreamBuf) (pre : List (Event R))
    (X : vvMatrixXd R) (opts : Options R) (msg : String)
    (h : (runEngine env cout0 pre X opts).status = .fatal msg) :
    ∃ e, env.learnSCM X opts.trunc opts.prior opts.verbose opts.threads
      = .threw (.exception e) := by
  unfold runEngine at h
  cases hE : env.learnSCM X opts.trunc opts.prior opts.verbose opts.threads with
  | returned rs => simp [hE] at h
  | threw thr =>
    cases thr with
    | other => simp [hE] at h
    | exception e => exact ⟨e, rfl⟩

/-- An accepted `trunc` is at least 1 when the default is. -/
theorem parseTrunc_ok {R : Type} (dflt n : Nat) (v : Option (OptValue R)) (hd : 1 ≤ dflt)
    (h : parseTrunc dflt v = .ok n) : 1 ≤ n := by
  unfold parseTrunc at h
  split at h
  · cases h; exact hd
  · split at h
    · cases h; omega
    · cases h
  · cases h

/-- An accepted `prior` is positive when the default is. -/
theorem parsePrior_ok {R : Type} [LinearOrderedRing R] (dflt r : R) (v : Option (OptValue R))
    (hd : 0 < dflt) (h : parsePrior dflt v = .ok r) : 0 < r := by
  unfold parsePrior at h
  split at h
  · cases h; exact hd
  · split at h
    · cases h; assumption
    · cases h
  · split at h
    · cases h; exact Int.cast_pos.mpr (by assumption)
    · cases h
  · cases h

/-- Options accepted by the parser of the specification satisfy the invariant of the
configuration when the defaults do. -/
theorem specParseopts_ok {R : Type} [LinearOrderedRing R] (dflt o : Options R) (a : MxArray R)
    (ht : 1 ≤ dflt.trunc) (hp : 0 < dflt.prior) (h : specParseopts dflt a = .ok o) :
    1 ≤ o.trunc ∧ 0 < o.prior := by
  unfold specParseopts at h
  split at h
  · rename_i fields
    cases hT : parseTrunc dflt.trunc (List.lookup "trunc" fields) with
    | error m => simp [hT] at h
    | ok trunc =>
      cases hP : parsePrior dflt.prior (List.lookup "prior" fields) with
      | error m => simp [hT, hP] at h
      | ok prior =>
        cases hV : parseFlag dflt.verbose (List.lookup "verbose" fields) with
        | error m => simp [hT, hP, hV] at h
        | ok verbose =>
          cases hS : parseFlag dflt.sparse (List.lookup "sparse" fields) with
          | error m => simp [hT, hP, hV, hS] at h
          | ok sparse =>
            cases hN : parseThreads dflt.threads (List.lookup "threads" fields) with
            | error m => simp [hT, hP, hV, hS, hN] at h
            | ok threads =>
              simp only [hT, hP, hV, hS, hN, Except.ok.injEq] at h
              subst h
              exact ⟨parseTrunc_ok _ _ _ ht hT, parsePrior_ok _ _ _ hp hP⟩
  · cases h

/-- The parser of the specification rejects an options structure with an out-of-domain
value. -/
theorem specParseopts_outOfDomain {R : Type} [LinearOrderedRing R] (dflt : Options R)
    (fields : List (String × OptValue R)) (h : OutOfDomain fields) :
    ∃ msg, specParseopts dflt (.struct fields) = .error msg := by
  have hT : (∃ i : Int, fields.lookup "trunc" = some (.int i) ∧ i < 1) →
      ∃ msg, parseTrunc dflt.trunc (fields.lookup "trunc") = .error msg := by
    rintro ⟨i, hi, hlt⟩
    exact ⟨"Option trunc must be a positive integer.",
      by simp [hi, parseTrunc, not_le.mpr hlt]⟩
  have hP : ((∃ r : R, fields.lookup "prior" = some (.real r) ∧ r ≤ 0) ∨
      (∃ i : Int, fields.lookup "prior" = some (.int i) ∧ i ≤ 0)) →
      ∃ msg, parsePrior dflt.prior (fields.lookup "prior") = .error msg := by
    rintro (⟨r, hr, hle⟩ | ⟨i, hi, hle⟩)
    · exact ⟨"Option prior must be positive.", by simp [hr, parsePrior, not_lt.mpr hle]⟩
    · exact ⟨"Option prior must be positive.", by simp [hi, parsePrior, not_lt.mpr hle]⟩
  have hN : (∃ i : Int, fields.lookup "threads" = some (.int i) ∧ i < 0) →
      ∃ msg, parseThreads dflt.threads (fields.lookup "threads") = .error msg := by
    rintro ⟨i, hi, hlt⟩
    exact ⟨"Option threads must be a non-negative integer.",
      by simp [hi, parseThreads, not_le.mpr hlt]⟩
  cases hT1 : parseTrunc dflt.trunc (List.lookup "trunc" fields) with
  | error m => exact ⟨m, by simp [specParseopts, hT1]⟩
  | ok trunc =>
    cases hP1 : parsePrior dflt.prior (List.lookup "prior" fields) with
    | error m => exact ⟨m, by simp [specParseopts, hT1, hP1]⟩
    | ok prior =>
      cases hV : parseFlag dflt.verbose (List.lookup "verbose" fields) with
      | error m => exact ⟨m, by simp [specParseopts, hT1, hP1, hV]⟩
      | ok verbose =>
        cases hS : parseFlag dflt.sparse (List.lookup "sparse" fields) with
        | error m => exact ⟨m, by simp [specParseopts, hT1, hP1, hV, hS]⟩
        | ok sparse =>
          cases hN1 : parseThreads dflt.threads (List.lookup "threads" fields) with
          | error m => exact ⟨m, by simp [specParseopts, hT1, hP1, hV, hS, hN1]⟩
          | ok threads =>
            exfalso
            rcases h with h | h | h | h
            · obtain ⟨m, hm⟩ := hT h
              rw [hT1] at hm; cases hm
            · obtain ⟨m, hm⟩ := hP (Or.inl h)
              rw [hP1] at hm; cases hm
            · obtain ⟨m, hm⟩ := hP (Or.inr h)
              rw [hP1] at hm; cases hm
            · obtain ⟨m, hm⟩ := hN h
              rw [hN1] at hm; cases hm

/-- The marshaller of the specification on the example input. -/
theorem demo_marshal : specCellcell2vecvec demoX = .ok demoXnative := by
  rfl

/-! ## Error paths -/

/-- C4. A call with no input argument (nrhs < 1) is aborted with the message
"Need at least some input data, X.": that `mexErrMsgTxt` is the only operation executed
(no marshalling, no option parsing, no redirection, no engine call), no output slot is
assigned and `std::cout` is untouched. -/
theorem mexFunction_no_input {R : Type} (env : Env R) (nlhs : Nat) (prhs : List (MxArray R))
    (cout0 : StreamBuf) (h : prhs.length < 1) :
    (mexFunction env nlhs prhs cout0).status = .fatal "Need at least some input data, X." ∧
    (mexFunction env nlhs prhs cout0).trace
      = [.mexErrMsgTxt "Need at least some input data, X."] ∧
    (mexFunction env nlhs prhs cout0).plhs = List.replicate 6 .null ∧
    (mexFunction env nlhs prhs cout0).cout = cout0 := by
  match prhs with
  | [] =>
    rw [mexFunction_nil]
    exact ⟨rfl, rfl, rfl, rfl⟩
  | x :: rest => simp at h

/-- Witness of C4: the call with an empty argument list. -/
theorem mexFunction_no_input_witness :
    ([] : List (MxArray Int)).length < 1 ∧
    (mexFunction (demoEnv (.returned demoResult)) 6 [] (.host 0)).status
      = .fatal "Need at least some input data, X." ∧
    (mexFunction (demoEnv (.returned demoResult)) 6 [] (.host 0)).trace
      = [.mexErrMsgTxt "Need at least some input data, X."] ∧
    (mexFunction (demoEnv (.returned demoResult)) 6 [] (.host 0)).plhs
      = List.replicate 6 .null ∧
    (mexFunction (demoEnv (.returned demoResult)) 6 [] (.host 0)).cout = .host 0 :=
  ⟨by decide, mexFunction_no_input (demoEnv (.returned demoResult)) 6 [] (.host 0) (by decide)⟩

/-- The error exit that the code does handle: when the engine call of a run throws an
object of the `std::exception` family, the trace ends with `mexout.restore()` followed by
`mexErrMsgTxt`, no `mexErrMsgTxt` comes earlier, the call is aborted by that fatal error,
`std::cout` has its buffer back, and none of the six output slots is assigned. -/
theorem engine_error_restore_then_fatal {R : Type} (env : Env R) (nlhs : Nat)
    (prhs : List (MxArray R)) (cout0 : StreamBuf) (X : vvMatrixXd R)
    (t : Nat) (p : R) (v : Bool) (th : Nat) (e : StdException)
    (hcall : Event.learnSCM X t p v th ∈ (mexFunction env nlhs prhs cout0).trace)
    (herr : env.learnSCM X t p v th = .threw (.exception e)) :
    ∃ pre msg,
      (mexFunction env nlhs prhs cout0).trace = pre ++ [.restore, .mexErrMsgTxt msg] ∧
      (∀ ev ∈ pre, ev.isMexErrMsgTxt = false ∧ ev.isRestore = false) ∧
      (mexFunction env nlhs prhs cout0).status = .fatal msg ∧
      (mexFunction env nlhs prhs cout0).cout = cout0 ∧
      (mexFunction env nlhs prhs cout0).plhs = List.replicate 6 .null := by
  obtain ⟨pre, opts, hpre, rfl, rfl, rfl, rfl, heq⟩ :=
    mexFunction_engine_called env nlhs prhs cout0 X t p v th hcall
  rw [heq]
  refine ⟨pre ++ [.hijack, .learnSCM X opts.trunc opts.prior opts.verbose opts.threads],
    e.copyToBase.what env.genericWhat, ?_⟩
  rcases hpre with rfl | rfl <;>
    simp [runEngine, herr, plhsInit, mexstreambuf.hijack, mexstreambuf.restore,
      Event.isMexErrMsgTxt, Event.isRestore]

/-- The handled error exit on an example: the engine throws `std::runtime_error`. -/
theorem engine_error_restore_then_fatal_witness :
    (Event.learnSCM demoXnative 100 1 false 0
        ∈ (mexFunction (demoEnv (.threw (.exception (.derived "Negative free energy!")))) 6
            [demoX] (.host 0)).trace ∧
      (demoEnv (.threw (.exception (.derived "Negative free energy!")))).learnSCM
        demoXnative 100 1 false 0 = .threw (.exception (.derived "Negative free energy!"))) ∧
    ∃ pre msg,
      (mexFunction (demoEnv (.threw (.exception (.derived "Negative free energy!")))) 6
        [demoX] (.host 0)).trace = pre ++ [.restore, .mexErrMsgTxt msg] ∧
      (∀ ev ∈ pre, ev.isMexErrMsgTxt = false ∧ ev.isRestore = false) ∧
      (mexFunction (demoEnv (.threw (.exception (.derived "Negative free energy!")))) 6
        [demoX] (.host 0)).status = .fatal msg ∧
      (mexFunction (demoEnv (.threw (.exception (.derived "Negative free energy!")))) 6
        [demoX] (.host 0)).cout = .host 0 ∧
      (mexFunction (demoEnv (.threw (.exception (.derived "Negative free energy!")))) 6
        [demoX] (.host 0)).plhs = List.replicate 6 .null :=
  ⟨⟨by simp [mexFunction, runEngine, demoEnv, demo_marshal], rfl⟩,
    engine_error_restore_then_fatal _ 6 [demoX] (.host 0) demoXnative 100 1 false 0
      (.derived "Negative free energy!")
      (by simp [mexFunction, runEngine, demoEnv, demo_marshal]) rfl⟩

/-- C1, the code at the failing input. When the engine call of a run raises a value that
is not of the `std::exception` family, the handler of line 91 does not match: no
`mexout.restore()` and no `mexErrMsgTxt` is executed, the call does not end in a fatal
error but with the raised value leaving `mexFunction`, and `std::cout` keeps the
redirection buffer; the six output slots stay unassigned. -/
theorem engine_other_throw_not_surfaced {R : Type} (env : Env R) (nlhs : Nat)
    (prhs : List (MxArray R)) (cout0 : StreamBuf) (X : vvMatrixXd R)
    (t : Nat) (p : R) (v : Bool) (th : Nat)
    (hcall : Event.learnSCM X t p v th ∈ (mexFunction env nlhs prhs cout0).trace)
    (herr : env.learnSCM X t p v th = .threw .other) :
    (∀ ev ∈ (mexFunction env nlhs prhs cout0).trace,
      ev.isRestore = false ∧ ev.isMexErrMsgTxt = false) ∧
    (∀ msg, (mexFunction env nlhs prhs cout0).status ≠ .fatal msg) ∧
    (mexFunction env nlhs prhs cout0).status = .uncaught ∧
    (mexFunction env nlhs prhs cout0).cout = .mexout ∧
    (mexFunction env nlhs prhs cout0).plhs = List.replicate 6 .null := by
  obtain ⟨pre, opts, hpre, rfl, rfl, rfl, rfl, heq⟩ :=
    mexFunction_engine_called env nlhs prhs cout0 X t p v th hcall
  rw [heq]
  rcases hpre with rfl | rfl <;>
    simp [runEngine, herr, plhsInit, mexstreambuf.hijack, Event.isMexErrMsgTxt,
      Event.isRestore]

/-- Witness of C1: the engine raises a value outside the `std::exception` family; the call
ends uncaught with the trace `cellcell2vecvec, hijack, learnSCM` and nothing after it. -/
theorem engine_other_throw_not_surfaced_witness :
    (Event.learnSCM demoXnative 100 1 false 0
        ∈ (mexFunction (demoEnv (.threw .other)) 6 [demoX] (.host 0)).trace ∧
      (demoEnv (.threw .other)).learnSCM demoXnative 100 1 false 0 = .threw .other) ∧
    (∀ ev ∈ (mexFunction (demoEnv (.threw .other)) 6 [demoX] (.host 0)).trace,
      ev.isRestore = false ∧ ev.isMexErrMsgTxt = false) ∧
    (∀ msg, (mexFunction (demoEnv (.threw .other)) 6 [demoX] (.host 0)).status
      ≠ .fatal msg) ∧
    (mexFunction (demoEnv (.threw .other)) 6 [demoX] (.host 0)).status = .uncaught ∧
    (mexFunction (demoEnv (.threw .other)) 6 [demoX] (.host 0)).cout = .mexout ∧
    (mexFunction (demoEnv (.threw .other)) 6 [demoX] (.host 0)).plhs
      = List.replicate 6 .null :=
  ⟨⟨by simp [mexFunction, runEngine, demoEnv, demo_marshal], rfl⟩,
    engine_other_throw_not_surfaced (demoEnv (.threw .other)) 6 [demoX] (.host 0)
      demoXnative 100 1 false 0
      (by simp [mexFunction, runEngine, demoEnv, demo_marshal]) rfl⟩

/-- C2, the code at the failing input. When the engine call of a run throws an object of a
class derived from `std::exception` whose own message is `m`, the handler
`catch (exception e)` copies only the base subobject, so the fatal error carries the base
class text `genericWhat` whatever `m` is; it carries `m` only if `m` happens to be that
text. -/
theorem engine_error_message_sliced {R : Type} (env : Env R) (nlhs : Nat)
    (prhs : List (MxArray R)) (cout0 : StreamBuf) (X : vvMatrixXd R)
    (t : Nat) (p : R) (v : Bool) (th : Nat) (m : String)
    (hcall : Event.learnSCM X t p v th ∈ (mexFunction env nlhs prhs cout0).trace)
    (herr : env.learnSCM X t p v th = .threw (.exception (.derived m))) :
    (mexFunction env nlhs prhs cout0).status = .fatal env.genericWhat ∧
    Event.mexErrMsgTxt env.genericWhat ∈ (mexFunction env nlhs prhs cout0).trace ∧
    (m ≠ env.genericWhat →
      (mexFunction env nlhs prhs cout0).status ≠ .fatal m ∧
      Event.mexErrMsgTxt m ∉ (mexFunction env nlhs prhs cout0).trace) := by
  obtain ⟨pre, opts, hpre, rfl, rfl, rfl, rfl, heq⟩ :=
    mexFunction_engine_called env nlhs prhs cout0 X t p v th hcall
  rw [heq]
  rcases hpre with rfl | rfl <;>
    simp [runEngine, herr, StdException.copyToBase, StdException.what] <;>
    intro hne <;> exact ⟨fun h => hne h.symm, hne⟩

/-- Witness of C2: the engine throws `std::runtime_error("Negative free energy!")` and the
caller is told "std::exception". -/
theorem engine_error_message_sliced_witness :
    (Event.learnSCM demoXnative 100 1 false 0
        ∈ (mexFunction (demoEnv (.threw (.exception (.derived "Negative free energy!")))) 6
            [demoX] (.host 0)).trace ∧
      (demoEnv (.threw (.exception (.derived "Negative free energy!")))).learnSCM
        demoXnative 100 1 false 0 = .threw (.exception (.derived "Negative free energy!"))) ∧
    (mexFunction (demoEnv (.threw (.exception (.derived "Negative free energy!")))) 6
      [demoX] (.host 0)).status = .fatal "std::exception" ∧
    (mexFunction (demoEnv (.threw (.exception (.derived "Negative free energy!")))) 6
      [demoX] (.host 0)).status ≠ .fatal "Negative free energy!" :=
  have h := engine_error_message_sliced
    (demoEnv (.threw (.exception (.derived "Negative free energy!")))) 6 [demoX] (.host 0)
    demoXnative 100 1 false 0 "Negative free energy!"
    (by simp [mexFunction, runEngine, demoEnv, demo_marshal]) rfl
  ⟨⟨by simp [mexFunction, runEngine, demoEnv, demo_marshal], rfl⟩, h.1,
    (h.2.2 (by decide)).1⟩

/-- C3, the code at the failing input. When the engine call of a run throws a value that is
not of the `std::exception` family, no handler matches: the value leaves `mexFunction`,
`mexout.restore()` is never called and `std::cout` still holds the redirection buffer. -/
theorem engine_other_throw_leaks_redirection {R : Type} (env : Env R) (nlhs : Nat)
    (prhs : List (MxArray R)) (cout0 : StreamBuf) (X : vvMatrixXd R)
    (t : Nat) (p : R) (v : Bool) (th : Nat)
    (hcall : Event.learnSCM X t p v th ∈ (mexFunction env nlhs prhs cout0).trace)
    (herr : env.learnSCM X t p v th = .threw .other) :
    (mexFunction env nlhs prhs cout0).status = .uncaught ∧
    Event.hijack ∈ (mexFunction env nlhs prhs cout0).trace ∧
    (mexFunction env nlhs prhs cout0).trace.countP Event.isRestore = 0 ∧
    (mexFunction env nlhs prhs cout0).cout = .mexout := by
  obtain ⟨pre, opts, hpre, rfl, rfl, rfl, rfl, heq⟩ :=
    mexFunction_engine_called env nlhs prhs cout0 X t p v th hcall
  rw [heq]
  rcases hpre with rfl | rfl <;>
    simp [runEngine, herr, mexstreambuf.hijack, Event.isRestore, List.countP_cons]

/-- Witness of C3: the engine throws a value outside the `std::exception` family; the
buffer of `std::cout`, `host 0` before the call, is the redirection buffer after it. -/
theorem engine_other_throw_leaks_redirection_witness :
    (Event.learnSCM demoXnative 100 1 false 0
        ∈ (mexFunction (demoEnv (.threw .other)) 6 [demoX] (.host 0)).trace ∧
      (demoEnv (.threw .other)).learnSCM demoXnative 100 1 false 0 = .threw .other) ∧
    (mexFunction (demoEnv (.threw .other)) 6 [demoX] (.host 0)).status = .uncaught ∧
    Event.hijack ∈ (mexFunction (demoEnv (.threw .other)) 6 [demoX] (.host 0)).trace ∧
    (mexFunction (demoEnv (.threw .other)) 6 [demoX] (.host 0)).trace.countP Event.isRestore
      = 0 ∧
    (mexFunction (demoEnv (.threw .other)) 6 [demoX] (.host 0)).cout = .mexout :=
  ⟨⟨by simp [mexFunction, runEngine, demoEnv, demo_marshal], rfl⟩,
    engine_other_throw_leaks_redirection (demoEnv (.threw .other)) 6 [demoX] (.host 0)
      demoXnative 100 1 false 0
      (by simp [mexFunction, runEngine, demoEnv, demo_marshal]) rfl⟩

/-- The two exits that the code does handle: when the engine call of a run returns, or
throws an object of the `std::exception` family, `mexout.restore()` is called exactly once
after the one `hijack` and `std::cout` ends with the buffer it had on entry. -/
theorem redirection_released_on_handled_exits {R : Type} (env : Env R) (nlhs : Nat)
    (prhs : List (MxArray R)) (cout0 : StreamBuf) (X : vvMatrixXd R)
    (t : Nat) (p : R) (v : Bool) (th : Nat)
    (hcall : Event.learnSCM X t p v th ∈ (mexFunction env nlhs prhs cout0).trace)
    (hexit : (∃ rs, env.learnSCM X t p v th = .returned rs) ∨
      (∃ e, env.learnSCM X t p v th = .threw (.exception e))) :
    (mexFunction env nlhs prhs cout0).trace.countP Event.isRestore = 1 ∧
    (mexFunction env nlhs prhs cout0).cout = cout0 := by
  obtain ⟨pre, opts, hpre, rfl, rfl, rfl, rfl, heq⟩ :=
    mexFunction_engine_called env nlhs prhs cout0 X t p v th hcall
  rw [heq]
  rcases hexit with ⟨rs, hE⟩ | ⟨e, hE⟩ <;> rcases hpre with rfl | rfl <;>
    simp [runEngine, hE, mexstreambuf.hijack, mexstreambuf.restore, Event.isRestore,
      List.countP_cons]

/-! ## Options -/

/-- C5, the code at the failing input. Two calls whose parsed options agree on `trunc`,
`prior`, `verbose` and `threads` behave identically, whatever their `sparse` flags are: the
engine is invoked with the same arguments, so the value of `sparse` never reaches it. -/
theorem sparse_flag_not_delivered {R : Type} (env : Env R) (nlhs : Nat)
    (x a1 a2 : MxArray R) (more1 more2 : List (MxArray R)) (cout0 : StreamBuf)
    (o1 o2 : Options R)
    (h1 : env.parseopts env.optsDefault a1 = .ok o1)
    (h2 : env.parseopts env.optsDefault a2 = .ok o2)
    (hsame : o1.trunc = o2.trunc ∧ o1.prior = o2.prior ∧ o1.verbose = o2.verbose ∧
      o1.threads = o2.threads) :
    mexFunction env nlhs (x :: a1 :: more1) cout0
      = mexFunction env nlhs (x :: a2 :: more2) cout0 := by
  obtain ⟨e1, e2, e3, e4⟩ := hsame
  cases hX : env.cellcell2vecvec x with
  | error msg =>
    rw [mexFunction_marshal_error env nlhs x _ cout0 msg hX,
      mexFunction_marshal_error env nlhs x _ cout0 msg hX]
  | ok X =>
    rw [mexFunction_parse_ok env nlhs x a1 more1 cout0 X o1 hX h1,
      mexFunction_parse_ok env nlhs x a2 more2 cout0 X o2 hX h2]
    simp only [runEngine, e1, e2, e3, e4]

/-- Witness of C5: options `sparse = true` against `sparse = false`. -/
theorem sparse_flag_not_delivered_witness :
    ((demoEnv (.returned demoResult)).parseopts (demoEnv (.returned demoResult)).optsDefault
        (.struct [("sparse", .bool true)])
        = .ok { trunc := 100, prior := 1, verbose := false, sparse := true, threads := 0 } ∧
      (demoEnv (.returned demoResult)).parseopts (demoEnv (.returned demoResult)).optsDefault
        (.struct [("sparse", .bool false)])
        = .ok { trunc := 100, prior := 1, verbose := false, sparse := false, threads := 0 }) ∧
    mexFunction (demoEnv (.returned demoResult)) 6 [demoX, .struct [("sparse", .bool true)]]
        (.host 0)
      = mexFunction (demoEnv (.returned demoResult)) 6
          [demoX, .struct [("sparse", .bool false)]] (.host 0) :=
  ⟨⟨rfl, rfl⟩,
    sparse_flag_not_delivered (demoEnv (.returned demoResult)) 6 demoX
      (.struct [("sparse", .bool true)]) (.struct [("sparse", .bool false)]) [] [] (.host 0)
      { trunc := 100, prior := 1, verbose := false, sparse := true, threads := 0 }
      { trunc := 100, prior := 1, verbose := false, sparse := false, threads := 0 }
      rfl
      rfl
      ⟨rfl, rfl, rfl, rfl⟩⟩

/-- C6. In a call with exactly one input argument the options parser is not run; every
engine invocation carries the truncation level, prior strength, verbosity and thread count
of the default-constructed options; when the input is marshalled successfully the engine is
invoked with them, only the marshalling and the redirection coming before; and a fatal
error of such a call is the marshaller's or follows an exception thrown by the engine. -/
theorem absent_options_use_defaults {R : Type} (env : Env R) (nlhs : Nat)
    (prhs : List (MxArray R)) (cout0 : StreamBuf) (h : prhs.length = 1) :
    Event.parseopts ∉ (mexFunction env nlhs prhs cout0).trace ∧
    (∀ X t p v th, Event.learnSCM X t p v th ∈ (mexFunction env nlhs prhs cout0).trace →
      t = env.optsDefault.trunc ∧ p = env.optsDefault.prior ∧
      v = env.optsDefault.verbose ∧ th = env.optsDefault.threads) ∧
    (∀ x X, prhs = [x] → env.cellcell2vecvec x = .ok X →
      ∃ post, (mexFunction env nlhs prhs cout0).trace
        = [.cellcell2vecvec, .hijack,
           .learnSCM X env.optsDefault.trunc env.optsDefault.prior env.optsDefault.verbose
             env.optsDefault.threads] ++ post) ∧
    (∀ msg, (mexFunction env nlhs prhs cout0).status = .fatal msg →
      (∃ x, prhs = [x] ∧ env.cellcell2vecvec x = .error msg) ∨
      (∃ X e, env.learnSCM X env.optsDefault.trunc env.optsDefault.prior
        env.optsDefault.verbose env.optsDefault.threads = .threw (.exception e))) := by
  match prhs, h with
  | [x], _ =>
    cases hX : env.cellcell2vecvec x with
    | error msg =>
      rw [mexFunction_marshal_error env nlhs x _ cout0 msg hX]
      refine ⟨by simp, by simp, ?_, ?_⟩
      · intro x1 X1 hx hX1
        simp only [List.cons.injEq, and_true] at hx
        subst hx
        rw [hX] at hX1
        cases hX1
      · intro msg1 hst
        simp only [Status.fatal.injEq] at hst
        subst hst
        exact Or.inl ⟨x, rfl, hX⟩
    | ok X =>
      rw [mexFunction_single env nlhs x cout0 X hX]
      obtain ⟨post, hpost, hev⟩ := runEngine_trace env cout0 [.cellcell2vecvec] X env.optsDefault
      refine ⟨?_, ?_, ?_, ?_⟩
      · rw [hpost]
        simp only [List.cons_append, List.nil_append, List.mem_cons, reduceCtorEq, false_or]
        intro hm
        rcases hev _ hm with h1 | ⟨m, h1⟩ <;> cases h1
      · intro X1 t p v th hm
        exact (runEngine_mem_learnSCM env cout0 _ (Or.inl rfl) X X1 env.optsDefault t p v th
          hm).2
      · intro x1 X1 hx hX1
        simp only [List.cons.injEq, and_true] at hx
        subst hx
        rw [hX] at hX1
        cases hX1
        exact ⟨post, by rw [hpost]; rfl⟩
      · intro msg hst
        obtain ⟨e, he⟩ := runEngine_fatal env cout0 _ X env.optsDefault msg hst
        exact Or.inr ⟨X, e, he⟩

/-- Witness of C6: the call with the input data alone. -/
theorem absent_options_use_defaults_witness :
    [demoX].length = 1 ∧
    Event.parseopts ∉ (mexFunction (demoEnv (.returned demoResult)) 6 [demoX] (.host 0)).trace ∧
    Event.learnSCM demoXnative 100 1 false 0
      ∈ (mexFunction (demoEnv (.returned demoResult)) 6 [demoX] (.host 0)).trace :=
  have h := absent_options_use_defaults (demoEnv (.returned demoResult)) 6 [demoX] (.host 0)
    rfl
  ⟨rfl, h.1, by
    obtain ⟨post, hpost⟩ := h.2.2.1 demoX demoXnative rfl demo_marshal
    rw [hpost]
    simp [demoEnv]⟩

/-- C7 (options parser modelled from the specification). With the parser of the
specification, a call whose options structure gives `trunc`, `prior` or `threads` an
out-of-domain value is aborted by a fatal error with no redirection installed, no engine
invocation and no output assigned, and when the input was marshalled successfully the
fatal error is the parser's; and in every call, defaults being in their domain, each engine
invocation has a truncation level of at least 1 and a positive prior strength. -/
theorem out_of_domain_option_fails_before_engine {R : Type} [LinearOrderedRing R]
    (env : Env R) (nlhs : Nat) (prhs : List (MxArray R)) (cout0 : StreamBuf) :
    (∀ x fields more, prhs = x :: .struct fields :: more → OutOfDomain fields →
      (∃ msg, (mexFunction env.withSpecParseopts nlhs prhs cout0).status = .fatal msg) ∧
      (∀ ev ∈ (mexFunction env.withSpecParseopts nlhs prhs cout0).trace,
        ev.isLearnSCM = false) ∧
      Event.hijack ∉ (mexFunction env.withSpecParseopts nlhs prhs cout0).trace ∧
      (mexFunction env.withSpecParseopts nlhs prhs cout0).plhs = List.replicate 6 .null ∧
      (∀ X, env.cellcell2vecvec x = .ok X →
        ∃ msg, specParseopts env.optsDefault (.struct fields) = .error msg ∧
          (mexFunction env.withSpecParseopts nlhs prhs cout0).trace
            = [.cellcell2vecvec, .parseopts, .mexErrMsgTxt msg] ∧
          (mexFunction env.withSpecParseopts nlhs prhs cout0).status = .fatal msg)) ∧
    (1 ≤ env.optsDefault.trunc → 0 < env.optsDefault.prior →
      ∀ X t p v th,
        Event.learnSCM X t p v th ∈ (mexFunction env.withSpecParseopts nlhs prhs cout0).trace →
        1 ≤ t ∧ 0 < p) := by
  constructor
  · rintro x fields more rfl hdom
    obtain ⟨msg, hmsg⟩ := specParseopts_outOfDomain env.optsDefault fields hdom
    cases hX : env.cellcell2vecvec x with
    | error m =>
      rw [mexFunction_marshal_error env.withSpecParseopts nlhs x _ cout0 m hX]
      exact ⟨⟨m, rfl⟩, by simp [Event.isLearnSCM], by simp, rfl, by intro X hX1; cases hX1⟩
    | ok X =>
      rw [mexFunction_parse_error env.withSpecParseopts nlhs x (.struct fields) more cout0 X msg
        hX hmsg]
      refine ⟨⟨msg, rfl⟩, by simp [Event.isLearnSCM], by simp, rfl, ?_⟩
      intro X1 _
      exact ⟨msg, hmsg, rfl, rfl⟩
  · intro ht hp X t p v th hm
    obtain ⟨pre, opts, hpre, rfl, rfl, rfl, rfl, heq⟩ :=
      mexFunction_engine_called env.withSpecParseopts nlhs prhs cout0 X t p v th hm
    match prhs with
    | [] =>
      rw [mexFunction_nil] at hm
      simp at hm
    | [x] =>
      cases hX : env.cellcell2vecvec x with
      | error m =>
        rw [mexFunction_marshal_error env.withSpecParseopts nlhs x _ cout0 m hX] at hm
        simp at hm
      | ok X0 =>
        rw [mexFunction_single env.withSpecParseopts nlhs x cout0 X0 hX] at hm
        obtain ⟨-, h1, h2, -, -⟩ := runEngine_mem_learnSCM env.withSpecParseopts cout0 _
          (Or.inl rfl) X0 X env.optsDefault _ _ _ _ hm
        rw [h1, h2]
        exact ⟨ht, hp⟩
    | x :: a :: more =>
      cases hX : env.cellcell2vecvec x with
      | error m =>
        rw [mexFunction_marshal_error env.withSpecParseopts nlhs x _ cout0 m hX] at hm
        simp at hm
      | ok X0 =>
        cases hO : specParseopts env.optsDefault a with
        | error m =>
          rw [mexFunction_parse_error env.withSpecParseopts nlhs x a more cout0 X0 m hX hO] at hm
          simp at hm
        | ok o =>
          rw [mexFunction_parse_ok env.withSpecParseopts nlhs x a more cout0 X0 o hX hO] at hm
          obtain ⟨-, h1, h2, -, -⟩ := runEngine_mem_learnSCM env.withSpecParseopts cout0 _
            (Or.inr rfl) X0 X o _ _ _ _ hm
          rw [h1, h2]
          exact specParseopts_ok env.optsDefault o a ht hp hO

/-- Witness of C7: `trunc = -3` and `prior = -1` are rejected before the engine is invoked;
`trunc = 2` reaches the engine. -/
theorem out_of_domain_option_fails_before_engine_witness :
    (OutOfDomain [("trunc", OptValue.int (-3)), ("prior", OptValue.real (-1 : Int))] ∧
      (1 ≤ (demoEnv (.returned demoResult)).optsDefault.trunc ∧
        (0 : Int) < (demoEnv (.returned demoResult)).optsDefault.prior) ∧
      Event.learnSCM demoXnative 2 1 false 0
        ∈ (mexFunction (demoEnv (.returned demoResult)).withSpecParseopts 6
            [demoX, .struct [("trunc", .int 2)]] (.host 0)).trace) ∧
    (mexFunction (demoEnv (.returned demoResult)).withSpecParseopts 6
        [demoX, .struct [("trunc", .int (-3)), ("prior", .real (-1))]] (.host 0)).trace
      = [.cellcell2vecvec, .parseopts,
         .mexErrMsgTxt "Option trunc must be a positive integer."] ∧
    (1 ≤ 2 ∧ (0 : Int) < 1) :=
  have hdom : OutOfDomain [("trunc", OptValue.int (-3)), ("prior", OptValue.real (-1 : Int))] :=
    Or.inl ⟨-3, rfl, by decide⟩
  have hmem : Event.learnSCM demoXnative 2 1 false 0
      ∈ (mexFunction (demoEnv (.returned demoResult)).withSpecParseopts 6
          [demoX, .struct [("trunc", .int 2)]] (.host 0)).trace := by
    rw [mexFunction_parse_ok _ 6 demoX _ [] (.host 0) demoXnative
      { trunc := 2, prior := 1, verbose := false, sparse := false, threads := 0 }
      demo_marshal rfl]
    simp [runEngine, Env.withSpecParseopts, demoEnv]
  ⟨⟨hdom, ⟨by decide, by decide⟩, hmem⟩,
    by
      obtain ⟨msg, hmsg, htr, -⟩ :=
        ((out_of_domain_option_fails_before_engine (demoEnv (.returned demoResult)) 6
          [demoX, .struct [("trunc", .int (-3)), ("prior", .real (-1))]] (.host 0)).1
          demoX _ [] rfl hdom).2.2.2.2 demoXnative demo_marshal
      have hm : msg = "Option trunc must be a positive integer." := by
        have h2 : specParseopts (demoEnv (.returned demoResult)).optsDefault
            (.struct [("trunc", .int (-3)), ("prior", .real (-1))])
            = .error "Option trunc must be a positive integer." := rfl
        rw [h2] at hmsg
        exact (Except.error.inj hmsg).symm
      rw [htr, hm],
    (out_of_domain_option_fails_before_engine (demoEnv (.returned demoResult)) 6
      [demoX, .struct [("trunc", .int 2)]] (.host 0)).2 (by decide) (by decide)
      demoXnative 2 1 false 0 hmem⟩

/-! ## Outputs -/

/-- C8. On a call that returns, with `rs` the results of its engine invocation: `plhs[2]`
is a 1-by-J cell matrix, J the number of `rs.weights`, whose j-th element is the j-th
expected log-weight array with `exp` applied to each coefficient (shape and length kept,
nothing else done to it), and `plhs[3]` is built the same way from the T `rs.classes`. -/
theorem weights_classes_outputs {R : Type} (env : Env R) (nlhs : Nat)
    (prhs : List (MxArray R)) (cout0 : StreamBuf)
    (h : (mexFunction env nlhs prhs cout0).status = .returned) :
    ∃ (X : vvMatrixXd R) (opts : Options R) (rs : ResultSet R),
      Event.learnSCM X opts.trunc opts.prior opts.verbose opts.threads
        ∈ (mexFunction env nlhs prhs cout0).trace ∧
      env.learnSCM X opts.trunc opts.prior opts.verbose opts.threads = .returned rs ∧
      (mexFunction env nlhs prhs cout0).plhs[2]? =
        some (.cell 1 rs.weights.length (rs.weights.map fun w =>
          .numeric w.Elogweight.rows w.Elogweight.cols (w.Elogweight.coeffs.map env.exp))) ∧
      (mexFunction env nlhs prhs cout0).plhs[3]? =
        some (.cell 1 rs.classes.length (rs.classes.map fun w =>
          .numeric w.Elogweight.rows w.Elogweight.cols (w.Elogweight.coeffs.map env.exp))) := by
  obtain ⟨pre, X, opts, rs, hpre, hE, htr, hpl, -⟩ :=
    mexFunction_returned env nlhs prhs cout0 h
  refine ⟨X, opts, rs, ?_, hE, ?_, ?_⟩
  · rw [htr]; simp
  · rw [hpl, formatReturns_eq]; rfl
  · rw [hpl, formatReturns_eq]; rfl

/-- Witness of C8: one group with two class weights, two classes with three cluster weights
each, the scalar function being `x ↦ 2 * x + 1`. -/
theorem weights_classes_outputs_witness :
    (mexFunction (demoEnv (.returned demoResult)) 6 [demoX] (.host 0)).status = .returned ∧
    (mexFunction (demoEnv (.returned demoResult)) 6 [demoX] (.host 0)).plhs[2]? =
      some (.cell 1 1 [.numeric 2 1 [-1, -3]]) ∧
    (mexFunction (demoEnv (.returned demoResult)) 6 [demoX] (.host 0)).plhs[3]? =
      some (.cell 1 2 [.numeric 3 1 [-1, -3, -5], .numeric 3 1 [-7, -9, -11]]) := by
  have hst : (mexFunction (demoEnv (.returned demoResult)) 6 [demoX] (.host 0)).status
      = .returned := by
    simp [mexFunction, runEngine, demoEnv, demo_marshal]
  obtain ⟨X, opts, rs, -, hE, h2, h3⟩ :=
    weights_classes_outputs (demoEnv (.returned demoResult)) 6 [demoX] (.host 0) hst
  have hrs : rs = demoResult := by
    simp only [demoEnv, EngineOutcome.returned.injEq] at hE
    exact hE.symm
  subst hrs
  exact ⟨hst, h2, h3⟩

/-- C9. On a call that returns, with `rs` the results of its engine invocation and K the
number of `rs.clusters`: `plhs[4]` and `plhs[5]` are 1-by-K cell matrices of K elements
each, and for every k the k-th element of `plhs[4]` is the mean and the k-th element of
`plhs[5]` the covariance of the k-th cluster object. -/
theorem means_covariances_outputs {R : Type} (env : Env R) (nlhs : Nat)
    (prhs : List (MxArray R)) (cout0 : StreamBuf)
    (h : (mexFunction env nlhs prhs cout0).status = .returned) :
    ∃ (X : vvMatrixXd R) (opts : Options R) (rs : ResultSet R)
      (means covs : List (MxArray R)),
      Event.learnSCM X opts.trunc opts.prior opts.verbose opts.threads
        ∈ (mexFunction env nlhs prhs cout0).trace ∧
      env.learnSCM X opts.trunc opts.prior opts.verbose opts.threads = .returned rs ∧
      (mexFunction env nlhs prhs cout0).plhs[4]? = some (.cell 1 rs.clusters.length means) ∧
      (mexFunction env nlhs prhs cout0).plhs[5]? = some (.cell 1 rs.clusters.length covs) ∧
      means.length = rs.clusters.length ∧ covs.length = rs.clusters.length ∧
      (∀ (k : Nat) (g : GaussWish R), rs.clusters[k]? = some g →
        means[k]? = some (.numeric g.getmean.rows g.getmean.cols g.getmean.coeffs) ∧
        covs[k]? = some (.numeric g.getcov.rows g.getcov.cols g.getcov.coeffs)) := by
  obtain ⟨pre, X, opts, rs, hpre, hE, htr, hpl, -⟩ :=
    mexFunction_returned env nlhs prhs cout0 h
  refine ⟨X, opts, rs, rs.clusters.map fun g => eig2mat g.getmean,
    rs.clusters.map fun g => eig2mat g.getcov, ?_, hE, ?_, ?_, by simp, by simp, ?_⟩
  · rw [htr]; simp
  · rw [hpl, formatReturns_eq]; rfl
  · rw [hpl, formatReturns_eq]; rfl
  · intro k g hk
    simp [List.getElem?_map, hk, eig2mat]

/-- Witness of C9: three clusters. -/
theorem means_covariances_outputs_witness :
    (mexFunction (demoEnv (.returned demoResult)) 6 [demoX] (.host 0)).status = .returned ∧
    (mexFunction (demoEnv (.returned demoResult)) 6 [demoX] (.host 0)).plhs[4]? =
      some (.cell 1 3 [.numeric 1 2 [0, 0], .numeric 1 2 [5, 5], .numeric 1 2 [9, 9]]) ∧
    (mexFunction (demoEnv (.returned demoResult)) 6 [demoX] (.host 0)).plhs[5]? =
      some (.cell 1 3 [.numeric 2 2 [1, 0, 0, 1], .numeric 2 2 [2, 0, 0, 2],
        .numeric 2 2 [3, 0, 0, 3]]) := by
  have hst : (mexFunction (demoEnv (.returned demoResult)) 6 [demoX] (.host 0)).status
      = .returned := by
    simp [mexFunction, runEngine, demoEnv, demo_marshal]
  obtain ⟨X, opts, rs, means, covs, -, hE, h4, h5, hm, hc, hal⟩ :=
    means_covariances_outputs (demoEnv (.returned demoResult)) 6 [demoX] (.host 0) hst
  have hrs : rs = demoResult := by
    simp only [demoEnv, EngineOutcome.returned.injEq] at hE
    exact hE.symm
  subst hrs
  have hmeans : means = [.numeric 1 2 [0, 0], .numeric 1 2 [5, 5], .numeric 1 2 [9, 9]] := by
    apply List.ext_getElem?
    intro k
    match k with
    | 0 => exact (hal 0 _ rfl).1
    | 1 => exact (hal 1 _ rfl).1
    | 2 => exact (hal 2 _ rfl).1
    | k + 3 =>
      rw [List.getElem?_eq_none (by rw [hm]; simp [demoResult])]
      rfl
  have hcovs : covs = [.numeric 2 2 [1, 0, 0, 1], .numeric 2 2 [2, 0, 0, 2],
      .numeric 2 2 [3, 0, 0, 3]] := by
    apply List.ext_getElem?
    intro k
    match k with
    | 0 => exact (hal 0 _ rfl).2
    | 1 => exact (hal 1 _ rfl).2
    | 2 => exact (hal 2 _ rfl).2
    | k + 3 =>
      rw [List.getElem?_eq_none (by rw [hc]; simp [demoResult])]
      rfl
  rw [hmeans] at h4
  rw [hcovs] at h5
  exact ⟨hst, h4, h5⟩

/-- C10, the code at the failing input. On a call that returns, `plhs[3]` is a 1-by-T cell
matrix with one element per class and never a numeric matrix. -/
theorem proportions_output_is_cell {R : Type} (env : Env R) (nlhs : Nat)
    (prhs : List (MxArray R)) (cout0 : StreamBuf)
    (h : (mexFunction env nlhs prhs cout0).status = .returned) :
    (∃ (T : Nat) (elems : List (MxArray R)),
      (mexFunction env nlhs prhs cout0).plhs[3]? = some (.cell 1 T elems) ∧
      elems.length = T) ∧
    (∀ rows cols data,
      (mexFunction env nlhs prhs cout0).plhs[3]? ≠ some (.numeric rows cols data)) := by
  obtain ⟨pre, X, opts, rs, hpre, hE, htr, hpl, -⟩ :=
    mexFunction_returned env nlhs prhs cout0 h
  have h3 : (mexFunction env nlhs prhs cout0).plhs[3]? =
      some (.cell 1 rs.classes.length
        (rs.classes.map fun w => eig2mat (w.Elogweight.exp env.exp))) := by
    rw [hpl, formatReturns_eq]; rfl
  refine ⟨⟨rs.classes.length, _, h3, by simp⟩, ?_⟩
  intro rows cols data hn
  rw [h3] at hn
  cases hn

/-- Witness of C10: with T = 2 classes and K = 3 clusters `plhs[3]` is a cell matrix of two
arrays of three coefficients, not a 2-by-3 numeric matrix. -/
theorem proportions_output_is_cell_witness :
    (mexFunction (demoEnv (.returned demoResult)) 6 [demoX] (.host 0)).status = .returned ∧
    (∃ (T : Nat) (elems : List (MxArray Int)),
      (mexFunction (demoEnv (.returned demoResult)) 6 [demoX] (.host 0)).plhs[3]?
        = some (.cell 1 T elems) ∧ elems.length = T) ∧
    (∀ data, (mexFunction (demoEnv (.returned demoResult)) 6 [demoX] (.host 0)).plhs[3]?
      ≠ some (.numeric 2 3 data)) :=
  have hst : (mexFunction (demoEnv (.returned demoResult)) 6 [demoX] (.host 0)).status
      = .returned := by
    simp [mexFunction, runEngine, demoEnv, demo_marshal]
  ⟨hst,
    (proportions_output_is_cell (demoEnv (.returned demoResult)) 6 [demoX] (.host 0) hst).1,
    fun data =>
      (proportions_output_is_cell (demoEnv (.returned demoResult)) 6 [demoX] (.host 0)
        hst).2 2 3 data⟩

end LibCluster
